import Mathlib

/-!
Verification of the Outfit-Simulator color-analysis and rule-engine core.

The definitions below are shallow embeddings of the Python modules
`src/core/color_analyzer.py` and `src/core/rule_engine.py`.

Modelling conventions, used throughout and noted at each definition:
* RGB components are natural numbers (the source casts them to `int`).
* Python floats are modelled by exact rationals.  Every float comparison of
  the source whose operands are decimal constants times integers is
  transcribed as the exactly equivalent integer comparison obtained by
  clearing denominators (e.g. `0.299*r+0.587*g+0.114*b < 30` becomes
  `299*r + 587*g + 114*b < 30000`, and `r/total > 0.35` with `total > 0`
  becomes `100*r > 35*total`); each such line carries the original
  expression as a comment.  Quantities the source genuinely divides
  (brightness averages, the weighted aggregate score) stay in `ℚ`.
* Comparisons of the form `sqrt d < t` on Euclidean color distances are
  modelled by the equivalent comparisons `d < t^2` on squared distances.
* Python's `round(x, 2)` (banker's rounding) is modelled by `round2`; the
  color-combo score is an exact integer before its `round(score, 1)`, so
  that rounding is the identity and the combo score is carried as `ℤ`.
-/

namespace OutfitSim

/-- An RGB color: three components in 0..255 (`classify_color_type` casts its
input to plain ints; we use naturals). -/
structure RGB where
  r : ℕ
  g : ℕ
  b : ℕ
deriving DecidableEq, Repr

/-- Result of `classify_color_type`: the dict `{'name': ..., 'tone': ...}`. -/
structure ColorInfo where
  name : String
  tone : String
deriving DecidableEq, Repr

/-- `1000 * (0.299*r + 0.587*g + 0.114*b)`: the luminance formula of
`classify_color_type`, scaled by 1000 so it stays in `ℕ`. -/
def brightness1000 (c : RGB) : ℕ :=
  299 * c.r + 587 * c.g + 114 * c.b

/-- Embedding of `classify_color_type` (color_analyzer.py lines 74-184).
The guard chain is transcribed in source order.  Brightness thresholds are
scaled by 1000 (`brightness1000`); ratio tests `x/total > d` are cleared to
`10^k * x > (10^k * d) * total`, valid because the `total = 0` guard has
already returned. -/
def classify_color_type (c : RGB) : ColorInfo :=
  let brightness := brightness1000 c
  let max_val : ℕ := max c.r (max c.g c.b)
  let min_val : ℕ := min c.r (min c.g c.b)
  let diff : ℕ := max_val - min_val
  if diff < 30 then
    -- brightness < 30 / brightness > 225
    if brightness < 30000 then ⟨"黑", "中性"⟩
    else if brightness > 225000 then ⟨"白", "中性"⟩
    else ⟨"灰", "中性"⟩
  else
    let total : ℕ := c.r + c.g + c.b
    if total = 0 then ⟨"黑", "中性"⟩
    -- 棕色系: brightness < 150 and r > 50 and g > 30 and b < min(r,g)*0.7 and r > b and g > b
    else if brightness < 150000 ∧ c.r > 50 ∧ c.g > 30 ∧ 10 * c.b < 7 * min c.r c.g
        ∧ c.r > c.b ∧ c.g > c.b then
      ⟨"棕", "暖色"⟩
    -- 黄色/橙色系: r_ratio > 0.35 and g_ratio > 0.3 and r > b and g > b
    else if 100 * c.r > 35 * total ∧ 10 * c.g > 3 * total ∧ c.r > c.b ∧ c.g > c.b then
      -- r > g * 1.15 and g > 100
      if 100 * c.r > 115 * c.g ∧ c.g > 100 then ⟨"橙", "暖色"⟩
      else if brightness > 200000 then ⟨"浅黄", "暖色"⟩
      else ⟨"黄", "暖色"⟩
    -- 红色系: r_ratio > 0.4 and r > g and r > b
    else if 10 * c.r > 4 * total ∧ c.r > c.g ∧ c.r > c.b then
      if brightness > 200000 then ⟨"粉", "暖色"⟩
      else if brightness < 80000 then ⟨"深红", "暖色"⟩
      else ⟨"红", "暖色"⟩
    -- 绿色系: g_ratio > 0.35 and g > r and g > b
    else if 100 * c.g > 35 * total ∧ c.g > c.r ∧ c.g > c.b then
      if brightness > 200000 then ⟨"浅绿", "冷色"⟩
      else if brightness < 100000 then ⟨"深绿", "冷色"⟩
      else ⟨"绿", "冷色"⟩
    -- 蓝色系: b_ratio > 0.4 and b > r and b > g
    else if 10 * c.b > 4 * total ∧ c.b > c.r ∧ c.b > c.g then
      if brightness > 200000 then ⟨"浅蓝", "冷色"⟩
      else if brightness < 100000 then ⟨"深蓝", "冷色"⟩
      else ⟨"蓝", "冷色"⟩
    -- 紫色系: r_ratio > 0.3 and b_ratio > 0.3 and r > g and b > g
    else if 10 * c.r > 3 * total ∧ 10 * c.b > 3 * total ∧ c.r > c.g ∧ c.b > c.g then
      if brightness > 200000 then ⟨"浅紫", "冷色"⟩
      else if brightness < 100000 then ⟨"深紫", "冷色"⟩
      else ⟨"紫", "冷色"⟩
    -- 默认情况
    else if max_val = c.r then ⟨"红", "暖色"⟩
    else if max_val = c.g then ⟨"绿", "冷色"⟩
    else ⟨"蓝", "冷色"⟩

/-- Squared Euclidean distance between two colors.  `calculate_color_distance`
returns the square root of this value; the scorer only compares that root
against the constants 50, 100 and 400. -/
def distSq (c1 c2 : RGB) : ℕ :=
  (((c1.r : ℤ) - c2.r) ^ 2).toNat + (((c1.g : ℤ) - c2.g) ^ 2).toNat +
    (((c1.b : ℤ) - c2.b) ^ 2).toNat

/-- Squared pairwise distances in the order the source's double loop
(`for i ... for j in range(i+1, ...)`) produces them. -/
def pairDistSqs : List RGB → List ℕ
  | [] => []
  | c :: rest => rest.map (distSq c) ++ pairDistSqs rest

/-- The three complementary pairs of `evaluate_color_combo` step 5
(color_analyzer.py lines 309-313). -/
def complementary_pairs : List (List String × List String) :=
  [ (["红", "深红", "粉"], ["绿", "深绿", "浅绿"]),
    (["蓝", "深蓝", "浅蓝"], ["橙", "黄", "浅黄"]),
    (["黄", "浅黄"], ["紫", "深紫", "浅紫"]) ]

/-- `any(c in pair1 for c in color_types) and any(c in pair2 ...)` tried over
the three complementary pairs (the source breaks at the first hit, which
equals this `any`). -/
def has_complementary (color_types : List String) : Bool :=
  complementary_pairs.any fun p =>
    (color_types.any fun c => p.1.contains c) &&
      (color_types.any fun c => p.2.contains c)

/-- Result dict of `evaluate_color_combo`.  The `analysis` sub-dict is
flattened into the last four fields; on the two early-return branches the
source omits some analysis keys, which is modelled by empty lists.  The
score is an integer: every deduction is integral and the source's final
`round(score, 1)` is the identity on integers. -/
structure ComboResult where
  score : ℤ
  suggestions : List String
  color_count : ℕ
  color_types : List String
  tones : List String
  contrastSqs : List ℕ
deriving DecidableEq, Repr

/-- Embedding of `evaluate_color_combo` (color_analyzer.py lines 203-344).
The sequential score mutations are transcribed as a chain of lets, in source
order; contrast thresholds are compared on squared distances. -/
def evaluate_color_combo (colors_list : List RGB) : ComboResult :=
  if colors_list = [] then
    { score := 0, suggestions := ["请提供至少一种颜色"],
      color_count := 0, color_types := [], tones := [], contrastSqs := [] }
  else if colors_list.length = 1 then
    { score := 100, suggestions := ["单色搭配，简洁优雅"],
      color_count := 1, color_types := [], tones := [], contrastSqs := [] }
  else
    -- 1. 三色原则检查
    let n := colors_list.length
    let score1 : ℤ := if n > 3 then 100 - 20 else 100
    let sugg1 : List String :=
      if n > 3 then ["建议主色调不超过3种，当前有" ++ toString n ++ "种颜色"]
      else if n = 3 then ["符合三色原则，搭配协调"]
      else []
    -- 2. 颜色分类和色系分析
    let color_types := colors_list.map fun c => (classify_color_type c).name
    let tones := colors_list.map fun c => (classify_color_type c).tone
    let warm_count := tones.count "暖色"
    let cold_count := tones.count "冷色"
    let neutral_count := tones.count "中性"
    -- 3. 色系协调性检查
    let mixedWC := warm_count > 0 ∧ cold_count > 0
    let score3 : ℤ := if mixedWC ∧ neutral_count = 0 then score1 - 15 else score1
    let sugg3 : List String :=
      if mixedWC ∧ neutral_count = 0 then ["冷暖色搭配时，建议加入中性色（黑/白/灰）作为过渡"]
      else if mixedWC then ["冷暖色搭配良好，中性色起到了很好的过渡作用"]
      else []
    -- 4. 对比度检查 (squared distances; min=inf / max=0 over no pairs is `none`)
    let contrasts := pairDistSqs colors_list
    let minC := contrasts.min?
    let maxC := contrasts.max?
    let score4a : ℤ := match minC with
      | some m => if m < 50 ^ 2 then score3 - 20 else if m < 100 ^ 2 then score3 - 10 else score3
      | none => score3
    let sugg4a : List String := match minC with
      | some m =>
          if m < 50 ^ 2 then ["部分颜色过于相似，缺乏层次感，建议增加对比度"]
          else if m < 100 ^ 2 then ["部分颜色对比度较低，可考虑增加一些对比"]
          else []
      | none => []
    let score4 : ℤ := match maxC with
      | some m => if m > 400 ^ 2 then score4a - 10 else score4a
      | none => score4a
    let sugg4b : List String := match maxC with
      | some m => if m > 400 ^ 2 then ["部分颜色对比度过高，可能显得刺眼，建议适当降低对比度"] else []
      | none => []
    -- 5. 冲突色检查
    let hasComp := has_complementary color_types
    let score5 : ℤ := if hasComp ∧ neutral_count = 0 then score4 - 15 else score4
    let sugg5 : List String :=
      if hasComp ∧ neutral_count = 0 then ["检测到互补色搭配，建议加入中性色（黑/白/灰）来平衡"]
      else if hasComp then ["互补色搭配得当，中性色起到了很好的平衡作用"]
      else []
    -- 6. 黑白灰的合理使用
    let sugg6 : List String :=
      if neutral_count = n then ["中性色搭配，经典且安全"]
      else if 0 < neutral_count ∧ neutral_count < n then ["中性色与彩色搭配，平衡且优雅"]
      else []
    -- 确保分数在0-100范围内
    let score := max 0 (min 100 score5)
    let suggestions := sugg1 ++ sugg3 ++ sugg4a ++ sugg4b ++ sugg5 ++ sugg6
    let suggestions :=
      if score ≥ 80 ∧ suggestions = [] then suggestions ++ ["颜色搭配协调，评分优秀"] else suggestions
    { score := score, suggestions := suggestions,
      color_count := n, color_types := color_types, tones := tones, contrastSqs := contrasts }

/-! ## Rule engine (`src/core/rule_engine.py`) -/

/-- A color as the rule engine receives it: an RGB tuple or a name string
(`isinstance(color, tuple)` dispatch in the source). -/
inductive ColorV where
  | rgb (c : RGB)
  | str (s : String)
deriving DecidableEq, Repr

/-- The color name the rules work with: classify RGB tuples, keep strings
(`ThreeColorRule._evaluate_colors` / `ForbiddenColorComboRule._evaluate_colors`). -/
def colorName : ColorV → String
  | .rgb c => (classify_color_type c).name
  | .str s => s

/-- A Python string dict, modelled as an association list; `d.get(k, '')`
reads the first binding. -/
def dictGet (d : List (String × String)) (k : String) : String :=
  match d.find? fun p => p.1 = k with
  | some p => p.2
  | none => ""

/-- `RuleSeverity`. -/
inductive Severity where
  | info
  | warning
  | error
deriving DecidableEq, Repr

/-- `RuleResult` (rule_engine.py lines 28-36); `weight` defaults to 1 when a
construction site omits it, which is spelled out at each such site below. -/
structure RuleResult where
  passed : Bool
  score : ℚ
  message : String
  suggestion : Option String := none
  severity : Severity := .info
  weight : ℚ := 1
deriving DecidableEq, Repr

/-- The style classes of `StyleCoordinationRule.get_style_type`. -/
inductive StyleType where
  | formal
  | casual
  | unknown
deriving DecidableEq, Repr

/-- `self.formal_styles` of `StyleCoordinationRule` (also repeated verbatim
inside `ContextAppropriateRule._evaluate_context`). -/
def formal_styles : List String := ["衬衫", "外套", "皮鞋"]

/-- `self.casual_styles` of `StyleCoordinationRule` (ditto). -/
def casual_styles : List String := ["T恤", "卫衣", "牛仔裤", "休闲裤", "运动鞋"]

/-- `get_style_type` inside `StyleCoordinationRule._evaluate_styles`. -/
def get_style_type (style : String) : StyleType :=
  if formal_styles.contains style then .formal
  else if casual_styles.contains style then .casual
  else .unknown

/-- The outfit-data dict built at the top of `evaluate_outfit`: all sections
already defaulted. -/
structure OutfitData where
  colors : List ColorV
  styles : List (String × String)
  context : List (String × String)
  top_colors : List ColorV
  bottom_colors : List ColorV
deriving DecidableEq, Repr

/-- `neutral_colors = {'黑', '白', '灰'}`. -/
def neutral_colors : List String := ["黑", "白", "灰"]

/-- The `main_colors` accumulation loop of `ThreeColorRule._evaluate_colors`:
append each non-neutral name not seen before. -/
def mainColors (colors : List ColorV) : List String :=
  colors.foldl
    (fun acc c =>
      let color_name := colorName c
      if neutral_colors.contains color_name then acc
      else if acc.contains color_name then acc
      else acc ++ [color_name])
    []

/-- `ThreeColorRule._evaluate_colors` (rule_engine.py lines 150-195). -/
def threeColorEval (max_colors : ℕ) (weight : ℚ) (colors : List ColorV) : RuleResult :=
  let num_main_colors := (mainColors colors).length
  if num_main_colors ≤ max_colors then
    { passed := true, score := 100,
      message := "符合三色原则，主色调有" ++ toString num_main_colors ++ "种",
      suggestion := none, severity := .info, weight := weight }
  else
    -- score = max(0, 100 - (num_main_colors - max_colors) * 20)
    { passed := false,
      score := max 0 (100 - ((num_main_colors - max_colors : ℕ) : ℚ) * 20),
      message := "违反三色原则，主色调有" ++ toString num_main_colors ++ "种（建议不超过"
        ++ toString max_colors ++ "种）",
      suggestion := some ("建议减少主色调数量，保留" ++ toString max_colors
        ++ "种主要颜色，其他使用中性色（黑/白/灰）"),
      severity := .warning, weight := weight }

/-- `get_brightness` inside `LightTopDarkBottomRule._evaluate_colors`: the
luminance formula for RGB tuples, a fixed lookup (default 128) for name
strings. -/
def get_brightness : ColorV → ℚ
  | .rgb c => (brightness1000 c : ℚ) / 1000
  | .str s =>
      let brightness_map : List (String × ℚ) :=
        [("黑", 0), ("深蓝", 50), ("深绿", 50), ("深红", 50), ("深紫", 50),
         ("灰", 128), ("棕", 100),
         ("蓝", 150), ("绿", 150), ("红", 150), ("紫", 150),
         ("浅蓝", 200), ("浅绿", 200), ("粉", 220), ("浅紫", 200),
         ("白", 255), ("浅黄", 240), ("黄", 220), ("橙", 200)]
      match brightness_map.find? fun p => p.1 = s with
      | some p => p.2
      | none => 128

/-- Mean brightness of a color list (`sum(...) / len(...)`). -/
def avgBrightness (colors : List ColorV) : ℚ :=
  (colors.map get_brightness).sum / colors.length

/-- `LightTopDarkBottomRule._evaluate_colors` (rule_engine.py lines 208-262).
The interpolated brightness values of the violation message (`:.1f`
formatting) are not reproduced in the message text. -/
def lightTopDarkEval (weight : ℚ) (data : OutfitData) : RuleResult :=
  let top_colors := data.top_colors
  let bottom_colors := data.bottom_colors
  if top_colors = [] ∨ bottom_colors = [] then
    { passed := true, score := 100, message := "未提供上下装颜色信息，跳过检查",
      suggestion := none, severity := .info, weight := weight }
  else
    let top_brightness := avgBrightness top_colors
    let bottom_brightness := avgBrightness bottom_colors
    if top_brightness ≥ bottom_brightness then
      { passed := true, score := 100, message := "符合上浅下深原则",
        suggestion := none, severity := .info, weight := weight }
    else
      let diff := bottom_brightness - top_brightness
      { passed := false, score := max 0 (100 - diff / 2),
        message := "违反上浅下深原则",
        suggestion := some "建议选择更浅的上衣颜色或更深的下装颜色",
        severity := .warning, weight := weight }

/-- `self.forbidden_combos` of `ForbiddenColorComboRule` (rule_engine.py
lines 275-279). -/
def forbidden_combos : List (List String × List String) :=
  [ (["红", "深红", "粉"], ["绿", "深绿", "浅绿"]),
    (["紫", "深紫", "浅紫"], ["黄", "浅黄", "橙"]),
    (["蓝", "深蓝", "浅蓝"], ["橙", "黄", "浅黄"]) ]

/-- The violating combos: `color_set & combo1` and `color_set & combo2` both
nonempty, i.e. some listed name occurs on each side. -/
def forbiddenViolations (color_names : List String) : List (List String × List String) :=
  forbidden_combos.filter fun p =>
    (color_names.any fun c => p.1.contains c) &&
      (color_names.any fun c => p.2.contains c)

/-- `ForbiddenColorComboRule._evaluate_colors` (rule_engine.py lines
281-325).  The violation message joins Python sets in unspecified order; the
joined text is not reproduced. -/
def forbiddenComboEval (weight : ℚ) (colors : List ColorV) : RuleResult :=
  let color_names := colors.map colorName
  if forbiddenViolations color_names = [] then
    { passed := true, score := 100, message := "未发现禁忌颜色组合",
      suggestion := none, severity := .info, weight := weight }
  else
    { passed := false, score := 50, message := "发现禁忌颜色组合",
      suggestion := some "建议避免互补色直接搭配，可以使用中性色（黑/白/灰）作为过渡",
      severity := .error, weight := weight }

/-- The tail of `StyleCoordinationRule._evaluate_styles` once the three slot
labels are classified: `types` filters out `unknown`, `unique_types` is its
set, and the three score branches follow. -/
def coordFromTypes (weight : ℚ) (top_type bottom_type shoe_type : StyleType) : RuleResult :=
  let types := [top_type, bottom_type, shoe_type].filter fun t => t ≠ StyleType.unknown
  if types = [] then
    { passed := true, score := 100, message := "无法判断款式风格",
      suggestion := none, severity := .info, weight := weight }
  else if types.dedup.length = 1 then
    { passed := true, score := 100, message := "款式风格协调统一",
      suggestion := none, severity := .info, weight := weight }
  else if types.dedup.length = 2 then
    { passed := true, score := 70, message := "款式风格部分混合，基本协调",
      suggestion := some "建议统一风格以获得更好的视觉效果",
      severity := .warning, weight := weight }
  else
    { passed := false, score := 40, message := "款式风格不协调，正装与休闲混搭",
      suggestion := some "建议统一风格：正装配正装，休闲装配休闲装",
      severity := .error, weight := weight }

/-- `StyleCoordinationRule._evaluate_styles` (rule_engine.py lines 341-403):
read the three slots and dispatch on their style types. -/
def styleCoordEval (weight : ℚ) (styles : List (String × String)) : RuleResult :=
  coordFromTypes weight
    (get_style_type (dictGet styles "top"))
    (get_style_type (dictGet styles "bottom"))
    (get_style_type (dictGet styles "shoes"))

/-- `self.context_styles` of `ContextAppropriateRule`, a map from context
type to recommended style categories. -/
def context_styles : List (String × List StyleType) :=
  [("正式场合", [.formal]), ("商务", [.formal]), ("工作", [.formal, .casual]),
   ("休闲", [.casual]), ("运动", [.casual]), ("聚会", [.casual, .formal])]

/-- `ContextAppropriateRule._evaluate_context` (rule_engine.py lines
425-490). -/
def contextEval (weight : ℚ) (context : List (String × String))
    (styles : List (String × String)) : RuleResult :=
  let context_type := dictGet context "type"
  if context_type = "" then
    { passed := true, score := 100, message := "未指定场景类型",
      suggestion := none, severity := .info, weight := weight }
  else
    let recommended : List StyleType :=
      match context_styles.find? fun p => p.1 = context_type with
      | some p => p.2
      | none => []
    if recommended.isEmpty then
      { passed := true, score := 100,
        message := "场景 '" ++ context_type ++ "' 无特定风格要求",
        suggestion := none, severity := .info, weight := weight }
    else
      let slot_styles := [dictGet styles "top", dictGet styles "bottom", dictGet styles "shoes"]
      let current_formal := slot_styles.any fun s => formal_styles.contains s
      let current_casual := slot_styles.any fun s => casual_styles.contains s
      let is_formal_ok := recommended.contains StyleType.formal && current_formal
      let is_casual_ok := recommended.contains StyleType.casual && current_casual
      if is_formal_ok || is_casual_ok then
        { passed := true, score := 100,
          message := "穿搭风格适合" ++ context_type ++ "场景",
          suggestion := none, severity := .info, weight := weight }
      else if recommended.contains StyleType.formal then
        { passed := false, score := 60,
          message := context_type ++ "场景建议穿正装，当前穿搭过于休闲",
          suggestion := some "建议选择衬衫、外套、皮鞋等正装单品",
          severity := .warning, weight := weight }
      else
        { passed := false, score := 60,
          message := context_type ++ "场景建议穿休闲装，当前穿搭过于正式",
          suggestion := some "建议选择T恤、牛仔裤、运动鞋等休闲单品",
          severity := .warning, weight := weight }

/-- The concrete rule classes of the source, as a closed kind (the five
`BaseRule` subclasses defined in rule_engine.py). -/
inductive RuleKind where
  | threeColor (max_colors : ℕ)
  | lightTopDark
  | forbiddenCombo
  | styleCoordination
  | contextAppropriate
deriving DecidableEq, Repr

/-- A rule instance: the `BaseRule` fields plus its concrete class. -/
structure Rule where
  name : String
  description : String
  weight : ℚ
  enabled : Bool
  kind : RuleKind
deriving DecidableEq, Repr

/-- `rule.evaluate(outfit_data)`: the `ColorRule`/`StyleRule`/`ContextRule`
base-class guard (skip with a passing score-100 info result when the
relevant section is empty — these skip results carry the `RuleResult`
default `weight=1.0`, not the rule's weight) followed by the subclass
`_evaluate_*`. -/
def ruleEvaluate (rule : Rule) (data : OutfitData) : RuleResult :=
  match rule.kind with
  | .threeColor m =>
      if data.colors = [] then
        { passed := true, score := 100, message := "未提供颜色信息，跳过颜色规则检查",
          suggestion := none, severity := .info, weight := 1 }
      else threeColorEval m rule.weight data.colors
  | .lightTopDark =>
      if data.colors = [] then
        { passed := true, score := 100, message := "未提供颜色信息，跳过颜色规则检查",
          suggestion := none, severity := .info, weight := 1 }
      else lightTopDarkEval rule.weight data
  | .forbiddenCombo =>
      if data.colors = [] then
        { passed := true, score := 100, message := "未提供颜色信息，跳过颜色规则检查",
          suggestion := none, severity := .info, weight := 1 }
      else forbiddenComboEval rule.weight data.colors
  | .styleCoordination =>
      if data.styles = [] then
        { passed := true, score := 100, message := "未提供款式信息，跳过款式规则检查",
          suggestion := none, severity := .info, weight := 1 }
      else styleCoordEval rule.weight data.styles
  | .contextAppropriate =>
      if data.context = [] then
        { passed := true, score := 100, message := "未提供场景信息，跳过场景规则检查",
          suggestion := none, severity := .info, weight := 1 }
      else contextEval rule.weight data.context data.styles

/-! ### RuleLibrary (rule_engine.py lines 495-545) -/

/-- `RuleLibrary._load_default_rules`: the five default rules, in
registration order, with their fixed default weights, all enabled. -/
def defaultLibrary : List Rule :=
  [ { name := "三色原则", description := "全身主色调不超过3种",
      weight := 1.5, enabled := true, kind := .threeColor 3 },
    { name := "上浅下深原则", description := "上衣颜色应该比下装颜色浅",
      weight := 1.2, enabled := true, kind := .lightTopDark },
    { name := "禁忌颜色组合", description := "避免互补色直接搭配（如红绿、紫黄）",
      weight := 1.8, enabled := true, kind := .forbiddenCombo },
    { name := "款式协调", description := "上下装和鞋子的风格应该协调",
      weight := 1.5, enabled := true, kind := .styleCoordination },
    { name := "场景适宜", description := "根据场景选择合适的穿搭风格",
      weight := 1.3, enabled := true, kind := .contextAppropriate } ]

/-- `RuleLibrary.add_rule`: unconditional append. -/
def add_rule (lib : List Rule) (rule : Rule) : List Rule := lib ++ [rule]

/-- `RuleLibrary.remove_rule`: keep the rules whose name differs. -/
def remove_rule (lib : List Rule) (rule_name : String) : List Rule :=
  lib.filter fun r => r.name ≠ rule_name

/-- `RuleLibrary.get_rule`: first rule with the given name. -/
def get_rule (lib : List Rule) (rule_name : String) : Option Rule :=
  lib.find? fun r => r.name = rule_name

/-- `rule.enabled = value` applied to the rule `get_rule` returns: mutate the
first rule carrying the name, keep everything else. -/
def setEnabledFirst : List Rule → String → Bool → List Rule
  | [], _, _ => []
  | r :: rs, rule_name, v =>
      if r.name = rule_name then { r with enabled := v } :: rs
      else r :: setEnabledFirst rs rule_name v

/-- `RuleLibrary.enable_rule`. -/
def enable_rule (lib : List Rule) (rule_name : String) : List Rule :=
  setEnabledFirst lib rule_name true

/-- `RuleLibrary.disable_rule`. -/
def disable_rule (lib : List Rule) (rule_name : String) : List Rule :=
  setEnabledFirst lib rule_name false

/-- `RuleLibrary.get_enabled_rules`. -/
def get_enabled_rules (lib : List Rule) : List Rule :=
  lib.filter fun r => r.enabled

/-! ### RuleEvaluator (rule_engine.py lines 550-657) -/

/-- One entry of the report's `results` list. -/
structure ResultEntry where
  rule_name : String
  rule_description : String
  passed : Bool
  score : ℚ
  message : String
  suggestion : Option String
  severity : Severity
  weight : ℚ
deriving DecidableEq, Repr

/-- One entry of the report's `suggestions` list. -/
structure SuggestionEntry where
  rule : String
  suggestion : String
  severity : Severity
deriving DecidableEq, Repr

/-- The report's `summary` dict. -/
structure Summary where
  total_rules : ℕ
  passed_rules : ℕ
  failed_rules : ℕ
  errors : ℕ
  warnings : ℕ
deriving DecidableEq, Repr

/-- The dict returned by `RuleEvaluator.evaluate_outfit`. -/
structure Report where
  score : ℚ
  passed : Bool
  results : List ResultEntry
  suggestions : List SuggestionEntry
  summary : Summary
deriving DecidableEq, Repr

/-- Round a rational to the nearest integer, ties to even: Python's
`round(x)` on the exact value. -/
def rheInt (q : ℚ) : ℤ :=
  let f := ⌊q⌋
  if q - f < 1 / 2 then f
  else if q - f > 1 / 2 then f + 1
  else if f % 2 = 0 then f else f + 1

/-- `round(x, 2)`. -/
def round2 (q : ℚ) : ℚ := (rheInt (q * 100) : ℚ) / 100

/-- Python's `x or d` on an optional list argument: `None` and `[]` both fall
back to the default (used for `top_colors or (colors or [])`). -/
def orDefault (o : Option (List ColorV)) (d : List ColorV) : List ColorV :=
  match o with
  | none => d
  | some [] => d
  | some l => l

/-- The `outfit_data` dict construction at the top of
`RuleEvaluator.evaluate_outfit`: every section defaulted, `top_colors` and
`bottom_colors` falling back to `colors or []`. -/
def mkOutfitData (colors : Option (List ColorV)) (styles : Option (List (String × String)))
    (context : Option (List (String × String))) (top_colors bottom_colors : Option (List ColorV)) :
    OutfitData :=
  let cs := colors.getD []
  { colors := cs,
    styles := styles.getD [],
    context := context.getD [],
    top_colors := orDefault top_colors cs,
    bottom_colors := orDefault bottom_colors cs }

/-- The per-rule loop body of `evaluate_outfit`: evaluate the rule, then
overwrite the result weight with the rule's weight
(`result.weight = rule.weight`). -/
def resultEntryFor (data : OutfitData) (rule : Rule) : ResultEntry :=
  let result := ruleEvaluate rule data
  { rule_name := rule.name, rule_description := rule.description,
    passed := result.passed, score := result.score, message := result.message,
    suggestion := result.suggestion, severity := result.severity,
    weight := rule.weight }

/-- `RuleEvaluator.evaluate_outfit` (rule_engine.py lines 562-657) over an
explicit library.  The running `total_weighted_score` / `total_weight`
accumulators are expressed as sums over the collected results; the
suggestion filter keeps results whose `suggestion` is truthy (not `None`,
not the empty string). -/
def evaluate_outfit (lib : List Rule) (colors : Option (List ColorV))
    (styles : Option (List (String × String))) (context : Option (List (String × String)))
    (top_colors bottom_colors : Option (List ColorV)) : Report :=
  let data := mkOutfitData colors styles context top_colors bottom_colors
  let rule_results := (get_enabled_rules lib).map (resultEntryFor data)
  let total_weighted_score := (rule_results.map fun e => e.score * e.weight).sum
  let total_weight := (rule_results.map fun e => e.weight).sum
  let overall_score := if total_weight > 0 then total_weighted_score / total_weight else 0
  let suggestions := rule_results.filterMap fun e =>
    match e.suggestion with
    | some s => if s = "" then none else some ⟨e.rule_name, s, e.severity⟩
    | none => none
  let error_count := rule_results.countP fun e => e.severity = Severity.error
  let warning_count := rule_results.countP fun e => e.severity = Severity.warning
  { score := round2 overall_score,
    passed := error_count = 0,
    results := rule_results,
    suggestions := suggestions,
    summary :=
      { total_rules := rule_results.length,
        passed_rules := rule_results.countP fun e => e.passed,
        failed_rules := rule_results.countP fun e => ¬ e.passed,
        errors := error_count,
        warnings := warning_count } }

/-- `len(unique_types)` of `StyleCoordinationRule._evaluate_styles`: the
number of distinct non-unknown style types among the three slots. -/
def styleTypeCount (styles : List (String × String)) : ℕ :=
  (([get_style_type (dictGet styles "top"), get_style_type (dictGet styles "bottom"),
    get_style_type (dictGet styles "shoes")].filter fun t => t ≠ StyleType.unknown)).dedup.length

/-! ## Theorems -/

/-- C1 counterexample: `classify_color_type` maps pure red `(255,0,0)` to
deep-red (its brightness `76.245` is below the deep-red threshold 80), not
to red, and pure blue `(0,0,255)` to deep-blue (brightness `29.07 < 100`),
not to blue. -/
theorem classify_primaries_counterexample :
    classify_color_type ⟨255, 0, 0⟩ = ⟨"深红", "暖色"⟩ ∧
      classify_color_type ⟨255, 0, 0⟩ ≠ ⟨"红", "暖色"⟩ ∧
      classify_color_type ⟨0, 0, 255⟩ = ⟨"深蓝", "冷色"⟩ ∧
      classify_color_type ⟨0, 0, 255⟩ ≠ ⟨"蓝", "冷色"⟩ := by
  decide

/-- C1 (amended): `classify_color_type (255,0,0)` is deep-red/warm,
`classify_color_type (0,0,0)` is black/neutral, and
`classify_color_type (0,0,255)` is deep-blue/cold. -/
theorem classify_primaries :
    classify_color_type ⟨255, 0, 0⟩ = ⟨"深红", "暖色"⟩ ∧
      classify_color_type ⟨0, 0, 0⟩ = ⟨"黑", "中性"⟩ ∧
      classify_color_type ⟨0, 0, 255⟩ = ⟨"深蓝", "冷色"⟩ := by
  decide

/-- C4: `evaluate_color_combo [(255,0,0),(0,255,0),(0,0,255)]` scores
exactly 70; the suggestion list shows precisely the three-color compliance
note, the −15 mixed warm/cold deduction and the −15 complementary-conflict
deduction, and the three pairwise squared distances are all `130050`
(`≈ 360.6²`), between `100² = 10000` and `400² = 160000`, so neither contrast
deduction fires. -/
theorem rgb_triple_scores_seventy :
    (evaluate_color_combo [⟨255, 0, 0⟩, ⟨0, 255, 0⟩, ⟨0, 0, 255⟩]).score = 70 ∧
      (evaluate_color_combo [⟨255, 0, 0⟩, ⟨0, 255, 0⟩, ⟨0, 0, 255⟩]).suggestions =
        ["符合三色原则，搭配协调", "冷暖色搭配时，建议加入中性色（黑/白/灰）作为过渡",
          "检测到互补色搭配，建议加入中性色（黑/白/灰）来平衡"] ∧
      (evaluate_color_combo [⟨255, 0, 0⟩, ⟨0, 255, 0⟩, ⟨0, 0, 255⟩]).tones =
        ["暖色", "冷色", "冷色"] ∧
      (evaluate_color_combo [⟨255, 0, 0⟩, ⟨0, 255, 0⟩, ⟨0, 0, 255⟩]).contrastSqs =
        [130050, 130050, 130050] ∧
      (10000 < 130050 ∧ 130050 < 160000) := by
  decide

/-- C8: `evaluate_color_combo []` returns score 0 with exactly the
"provide at least one color" suggestion, and on every single-color list the
score is 100 with exactly the "minimalist, elegant" suggestion. -/
theorem combo_edge_cases :
    (evaluate_color_combo []).score = 0 ∧
      (evaluate_color_combo []).suggestions = ["请提供至少一种颜色"] ∧
      ∀ c : RGB, (evaluate_color_combo [c]).score = 100 ∧
        (evaluate_color_combo [c]).suggestions = ["单色搭配，简洁优雅"] := by
  refine ⟨by decide, by decide, fun c => ?_⟩
  simp [evaluate_color_combo]

/-- Helper: only `formal` and `casual` survive the non-unknown filter, so at
most two distinct style types can occur among the three slots. -/
lemma styleCount_le_two (a b c : StyleType) :
    (([a, b, c].filter fun t => t ≠ StyleType.unknown)).dedup.length ≤ 2 := by
  cases a <;> cases b <;> cases c <;> decide

/-- Helper: case analysis of `coordFromTypes` over the 27 style-type
triples: the score is never 40, one distinct type yields the score-100 info
result and two distinct types the score-70 warning result. -/
lemma coord_spec (w : ℚ) (a b c : StyleType) :
    (coordFromTypes w a b c).score ≠ 40 ∧
    ((([a, b, c].filter fun t => t ≠ StyleType.unknown)).dedup.length = 1 →
      (coordFromTypes w a b c).score = 100 ∧ (coordFromTypes w a b c).passed = true ∧
        (coordFromTypes w a b c).severity = Severity.info) ∧
    ((([a, b, c].filter fun t => t ≠ StyleType.unknown)).dedup.length = 2 →
      (coordFromTypes w a b c).score = 70 ∧ (coordFromTypes w a b c).severity = Severity.warning ∧
        (coordFromTypes w a b c).passed = true) := by
  cases a <;> cases b <;> cases c <;>
    refine ⟨?_, ?_, ?_⟩ <;>
      first
        | (intro h; exact absurd (show (100 : ℚ) = 40 from h) (by norm_num))
        | (intro h; exact absurd (show (70 : ℚ) = 40 from h) (by norm_num))
        | (intro h; exact absurd h (by decide))
        | (intro h; exact ⟨rfl, rfl, rfl⟩)

/-- C2 counterexample: shirt/jeans/leather-shoes mixes formal and casual
pieces (both present and conflicting), yet `_evaluate_styles` returns score
70 with severity=warning and passed=true — only two distinct non-unknown
types exist, so the score-40 error branch is not taken. -/
theorem style_mix_counterexample :
    get_style_type "衬衫" = StyleType.formal ∧ get_style_type "牛仔裤" = StyleType.casual ∧
      get_style_type "皮鞋" = StyleType.formal ∧
      ¬ ((styleCoordEval 1.5 [("top", "衬衫"), ("bottom", "牛仔裤"), ("shoes", "皮鞋")]).score = 40 ∧
          (styleCoordEval 1.5 [("top", "衬衫"), ("bottom", "牛仔裤"), ("shoes", "皮鞋")]).severity =
            Severity.error ∧
          (styleCoordEval 1.5 [("top", "衬衫"), ("bottom", "牛仔裤"), ("shoes", "皮鞋")]).passed =
            false) ∧
      (styleCoordEval 1.5 [("top", "衬衫"), ("bottom", "牛仔裤"), ("shoes", "皮鞋")]).score = 70 := by
  decide

/-- C2 (amended): for every styles mapping, at most two distinct non-unknown
style types occur (only formal and casual exist, so the score-40
severity=error branch is unreachable and the score is never 40); exactly one
distinct type yields score 100 (info, passed) and exactly two distinct types
— i.e. formal and casual both present — yield score 70 with
severity=warning, still passed. -/
theorem style_coordination_cases (w : ℚ) (styles : List (String × String)) :
    styleTypeCount styles ≤ 2 ∧
    (styleCoordEval w styles).score ≠ 40 ∧
    (styleTypeCount styles = 1 →
      (styleCoordEval w styles).score = 100 ∧ (styleCoordEval w styles).passed = true ∧
        (styleCoordEval w styles).severity = Severity.info) ∧
    (styleTypeCount styles = 2 →
      (styleCoordEval w styles).score = 70 ∧
        (styleCoordEval w styles).severity = Severity.warning ∧
        (styleCoordEval w styles).passed = true) :=
  ⟨styleCount_le_two _ _ _, (coord_spec w _ _ _).1, (coord_spec w _ _ _).2.1,
    (coord_spec w _ _ _).2.2⟩

/-- C2 witness: the two satisfiable cases at concrete inputs — an all-casual
outfit (one distinct type, score 100) and a mixed formal/casual outfit (two
distinct types, score 70, warning). -/
theorem style_coordination_cases_witness :
    ((styleCoordEval 1.5 [("top", "T恤"), ("bottom", "牛仔裤"), ("shoes", "运动鞋")]).score = 100 ∧
      (styleCoordEval 1.5 [("top", "T恤"), ("bottom", "牛仔裤"), ("shoes", "运动鞋")]).passed = true ∧
      (styleCoordEval 1.5 [("top", "T恤"), ("bottom", "牛仔裤"), ("shoes", "运动鞋")]).severity =
        Severity.info) ∧
    ((styleCoordEval 1.5 [("top", "衬衫"), ("bottom", "牛仔裤"), ("shoes", "皮鞋")]).score = 70 ∧
      (styleCoordEval 1.5 [("top", "衬衫"), ("bottom", "牛仔裤"), ("shoes", "皮鞋")]).severity =
        Severity.warning ∧
      (styleCoordEval 1.5 [("top", "衬衫"), ("bottom", "牛仔裤"), ("shoes", "皮鞋")]).passed = true) :=
  ⟨(style_coordination_cases 1.5 _).2.2.1 (by decide),
    (style_coordination_cases 1.5 _).2.2.2 (by decide)⟩

/-- Helper: a list whose `any` holds has a nonempty `filter`. -/
lemma filter_ne_nil_of_any {α : Type} (l : List α) (p : α → Bool) (h : l.any p = true) :
    l.filter p ≠ [] := by
  simp only [List.any_eq_true] at h
  obtain ⟨x, hx, hpx⟩ := h
  intro hnil
  exact absurd (List.filter_eq_nil_iff.mp hnil x hx) (by simp [hpx])

/-- Helper: a complementary-pair hit among a set of color names always hits
one of `ForbiddenColorComboRule`'s forbidden combos — the red/green and
blue/orange-yellow pairs coincide, and the scorer's yellow-purple pair is
contained in the rule's purple-vs-{yellow, pale-yellow, orange} combo. -/
lemma complementary_implies_forbidden_names (names : List String)
    (h : has_complementary names = true) : forbiddenViolations names ≠ [] := by
  refine filter_ne_nil_of_any _ _ ?_
  simp only [has_complementary, complementary_pairs, List.any_cons, List.any_nil,
    Bool.or_false, Bool.or_eq_true, Bool.and_eq_true] at h
  simp only [forbidden_combos, List.any_cons, List.any_nil, Bool.or_false, Bool.or_eq_true,
    Bool.and_eq_true]
  rcases h with ⟨h1, h2⟩ | ⟨h1, h2⟩ | ⟨h1, h2⟩
  · exact Or.inl ⟨h1, h2⟩
  · exact Or.inr (Or.inr ⟨h1, h2⟩)
  · refine Or.inr (Or.inl ⟨h2, ?_⟩)
    simp only [List.any_eq_true] at h1 ⊢
    obtain ⟨c, hc, hm⟩ := h1
    refine ⟨c, hc, ?_⟩
    revert hm
    simp only [List.elem_iff, List.mem_cons, List.not_mem_nil, or_false]
    tauto

/-- C3 counterexample: orange `(255,165,0)` plus purple `(128,0,128)`
classify to 橙 and 深紫; `ForbiddenColorComboRule` flags the combination
(its purple combo lists orange on the yellow side) and fails with score 50,
while `evaluate_color_combo`'s complementary-conflict check does not detect
any complementary pair for the same classified names — so the two checks do
not use the same pairs. -/
theorem forbidden_combo_mismatch :
    (classify_color_type ⟨255, 165, 0⟩).name = "橙" ∧
      (classify_color_type ⟨128, 0, 128⟩).name = "深紫" ∧
      (forbiddenComboEval 1.8 [ColorV.rgb ⟨255, 165, 0⟩, ColorV.rgb ⟨128, 0, 128⟩]).passed =
        false ∧
      (forbiddenComboEval 1.8 [ColorV.rgb ⟨255, 165, 0⟩, ColorV.rgb ⟨128, 0, 128⟩]).score = 50 ∧
      has_complementary
        ([⟨255, 165, 0⟩, ⟨128, 0, 128⟩].map fun c : RGB => (classify_color_type c).name) =
        false := by
  decide

/-- C3 (amended): the implication holds in one direction — whenever
`evaluate_color_combo`'s complementary-conflict check detects a pair among
the classified color names, `ForbiddenColorComboRule` finds a forbidden
combination on the same names; the converse fails (see the orange/purple
counterexample) because the rule's purple combo additionally lists orange. -/
theorem complementary_subsumed_by_forbidden (colors : List RGB)
    (h : has_complementary (colors.map fun c => (classify_color_type c).name) = true) :
    forbiddenViolations (colors.map fun c => (classify_color_type c).name) ≠ [] :=
  complementary_implies_forbidden_names _ h

/-- C3 witness: red plus green trips the scorer's complementary check, and
the rule then also reports a violation. -/
theorem complementary_subsumed_by_forbidden_witness :
    has_complementary ([⟨255, 0, 0⟩, ⟨0, 255, 0⟩].map fun c : RGB =>
      (classify_color_type c).name) = true ∧
    forbiddenViolations ([⟨255, 0, 0⟩, ⟨0, 255, 0⟩].map fun c : RGB =>
      (classify_color_type c).name) ≠ [] :=
  ⟨by decide, complementary_subsumed_by_forbidden [⟨255, 0, 0⟩, ⟨0, 255, 0⟩] (by decide)⟩

/-- Helper: mutating the enabled flag of the first rule with a given name
leaves the name sequence unchanged. -/
lemma setEnabledFirst_names (lib : List Rule) (nm : String) (v : Bool) :
    (setEnabledFirst lib nm v).map Rule.name = lib.map Rule.name := by
  induction lib with
  | nil => rfl
  | cons r rs ih =>
      rw [setEnabledFirst]
      split
      · simp
      · simp [ih]

/-- C7 counterexample: the default library's rule names are unique, but
`add_rule` appends unconditionally, so adding a second rule named 三色原则
produces a library with a duplicated name — `add_rule` does not preserve the
uniqueness invariant. -/
theorem add_rule_duplicate_name :
    (defaultLibrary.map Rule.name).Nodup ∧
      ¬ (((add_rule defaultLibrary
            { name := "三色原则", description := "重复规则", weight := 1, enabled := true,
              kind := .threeColor 3 }).map Rule.name).Nodup) := by
  decide

/-- C7 (amended): construction yields the five uniquely named default rules;
`remove_rule`, `enable_rule` and `disable_rule` preserve name uniqueness
(the latter two do not change the name sequence at all); `add_rule`
preserves it exactly when the added rule's name is not already present. -/
theorem rule_name_uniqueness (lib : List Rule) (nm : String) (rule : Rule) :
    (defaultLibrary.map Rule.name).Nodup ∧
    ((lib.map Rule.name).Nodup → ((remove_rule lib nm).map Rule.name).Nodup) ∧
    ((enable_rule lib nm).map Rule.name = lib.map Rule.name) ∧
    ((disable_rule lib nm).map Rule.name = lib.map Rule.name) ∧
    ((lib.map Rule.name).Nodup →
      (((add_rule lib rule).map Rule.name).Nodup ↔ rule.name ∉ lib.map Rule.name)) := by
  refine ⟨by decide, ?_, setEnabledFirst_names lib nm true, setEnabledFirst_names lib nm false, ?_⟩
  · intro h
    exact h.sublist ((List.filter_sublist lib).map Rule.name)
  · intro h
    simp [add_rule, List.nodup_append, h]

/-- C7 witness: removing a rule from the default library keeps names unique,
and adding a freshly named rule keeps them unique precisely because the name
is new. -/
theorem rule_name_uniqueness_witness :
    ((remove_rule defaultLibrary "三色原则").map Rule.name).Nodup ∧
    (((add_rule defaultLibrary
        { name := "自定义规则", description := "", weight := 1, enabled := true,
          kind := .lightTopDark }).map Rule.name).Nodup ↔
      "自定义规则" ∉ defaultLibrary.map Rule.name) :=
  ⟨(rule_name_uniqueness defaultLibrary "三色原则"
      { name := "自定义规则", description := "", weight := 1, enabled := true,
        kind := .lightTopDark }).2.1 (by decide),
    (rule_name_uniqueness defaultLibrary "三色原则"
      { name := "自定义规则", description := "", weight := 1, enabled := true,
        kind := .lightTopDark }).2.2.2.2 (by decide)⟩

/-- C9 counterexample: enabling 三色原则 — which is already enabled — in the
default library is a no-op: the enabled-rule list stays the same five rules,
so its length does not change by one. -/
theorem enable_enabled_rule_noop :
    (get_enabled_rules (enable_rule defaultLibrary "三色原则")).length = 5 ∧
      (get_enabled_rules defaultLibrary).length = 5 ∧
      get_enabled_rules (enable_rule defaultLibrary "三色原则") =
        get_enabled_rules defaultLibrary := by
  refine ⟨rfl, rfl, rfl⟩

/-- C9 (amended): for every library and name whose lookup succeeds, if the
found rule is currently enabled then disabling it shrinks
`get_enabled_rules` by exactly one and re-enabling the same name restores
the library exactly; symmetrically, if it is currently disabled, enabling
grows the enabled list by exactly one and disabling restores the library.
When the rule is already in the requested state (or the name is absent) the
call does not change the enabled count by one (see the counterexample). -/
theorem toggle_rule_by_name (lib : List Rule) (nm : String) (r : Rule)
    (hfind : get_rule lib nm = some r) :
    (r.enabled = true →
      (get_enabled_rules (disable_rule lib nm)).length + 1 = (get_enabled_rules lib).length ∧
        enable_rule (disable_rule lib nm) nm = lib) ∧
    (r.enabled = false →
      (get_enabled_rules (enable_rule lib nm)).length = (get_enabled_rules lib).length + 1 ∧
        disable_rule (enable_rule lib nm) nm = lib) := by
  induction lib with
  | nil => simp [get_rule] at hfind
  | cons a as ih =>
      by_cases h : a.name = nm
      · subst h
        have ha : a = r := by simpa [get_rule, List.find?_cons] using hfind
        subst ha
        refine ⟨fun he => ⟨?_, ?_⟩, fun he => ⟨?_, ?_⟩⟩
        · simp [disable_rule, get_enabled_rules, setEnabledFirst, List.filter_cons, he]
        · have hres : ({ a with enabled := true } : Rule) = a := by cases a; subst he; rfl
          simp [disable_rule, enable_rule, setEnabledFirst, hres]
        · simp [enable_rule, get_enabled_rules, setEnabledFirst, List.filter_cons, he]
        · have hres : ({ a with enabled := false } : Rule) = a := by cases a; subst he; rfl
          simp [disable_rule, enable_rule, setEnabledFirst, hres]
      · have hfind' : get_rule as nm = some r := by
          simpa [get_rule, List.find?_cons, h] using hfind
        obtain ⟨ih1, ih2⟩ := ih hfind'
        have hd : setEnabledFirst (a :: as) nm false = a :: setEnabledFirst as nm false := by
          simp [setEnabledFirst, h]
        have hen : setEnabledFirst (a :: as) nm true = a :: setEnabledFirst as nm true := by
          simp [setEnabledFirst, h]
        refine ⟨fun he => ?_, fun he => ?_⟩
        · obtain ⟨ihl, ihe⟩ := ih1 he
          refine ⟨?_, ?_⟩
          · simp only [disable_rule, get_enabled_rules] at ihl ⊢
            rw [hd, List.filter_cons, List.filter_cons]
            split <;> (try simp only [List.length_cons]) <;> omega
          · simp only [disable_rule, enable_rule] at ihe ⊢
            rw [hd, setEnabledFirst, if_neg h, ihe]
        · obtain ⟨ihl, ihe⟩ := ih2 he
          refine ⟨?_, ?_⟩
          · simp only [enable_rule, get_enabled_rules] at ihl ⊢
            rw [hen, List.filter_cons, List.filter_cons]
            split <;> (try simp only [List.length_cons]) <;> omega
          · simp only [disable_rule, enable_rule] at ihe ⊢
            rw [hen, setEnabledFirst, if_neg h, ihe]

/-- C9 witness: disabling the (enabled) 三色原则 rule in the default library
drops the enabled count from 5 to 4, and re-enabling it restores the
original library. -/
theorem toggle_rule_by_name_witness :
    (get_enabled_rules (disable_rule defaultLibrary "三色原则")).length + 1 =
      (get_enabled_rules defaultLibrary).length ∧
    enable_rule (disable_rule defaultLibrary "三色原则") "三色原则" = defaultLibrary :=
  (toggle_rule_by_name defaultLibrary "三色原则"
    { name := "三色原则", description := "全身主色调不超过3种", weight := 1.5, enabled := true,
      kind := .threeColor 3 } rfl).1 rfl

/-- Helper: every concrete rule evaluation produces a score in `[0, 100]`:
the fixed branch scores are 100/70/60/50/40, and the two computed scores are
clamped below by `max 0` and never exceed 100 because their deductions are
nonnegative. -/
lemma ruleEval_score_bounds (rule : Rule) (data : OutfitData) :
    0 ≤ (ruleEvaluate rule data).score ∧ (ruleEvaluate rule data).score ≤ 100 := by
  rcases rule with ⟨nm, ds, w, en, k⟩
  cases k with
  | threeColor m =>
      simp only [ruleEvaluate]
      split
      · norm_num
      · simp only [threeColorEval]
        split
        · norm_num
        · refine ⟨le_max_left _ _, max_le (by norm_num) ?_⟩
          have h20 : (0 : ℚ) ≤ (((mainColors data.colors).length - m : ℕ) : ℚ) * 20 := by
            positivity
          linarith
  | lightTopDark =>
      simp only [ruleEvaluate]
      split
      · norm_num
      · simp only [lightTopDarkEval, ge_iff_le]
        split
        · norm_num
        · split
          · norm_num
          · next h =>
              refine ⟨le_max_left _ _, max_le (by norm_num) ?_⟩
              push_neg at h
              linarith
  | forbiddenCombo =>
      simp only [ruleEvaluate]
      split
      · norm_num
      · simp only [forbiddenComboEval]
        split <;> norm_num
  | styleCoordination =>
      simp only [ruleEvaluate]
      split
      · norm_num
      · simp only [styleCoordEval, coordFromTypes]
        repeat' split
        all_goals norm_num
  | contextAppropriate =>
      simp only [ruleEvaluate]
      split
      · norm_num
      · simp only [contextEval]
        repeat' split
        all_goals norm_num

/-- Helper: rounding to the nearest integer never goes below a lower
bound of 0. -/
lemma rheInt_nonneg (q : ℚ) (h : 0 ≤ q) : 0 ≤ rheInt q := by
  have hf : 0 ≤ ⌊q⌋ := Int.floor_nonneg.mpr h
  simp only [rheInt]
  split
  · exact hf
  · split
    · omega
    · split
      · exact hf
      · omega

/-- Helper: rounding to the nearest integer respects an integer upper
bound (the rounded-up branches fire only when the fractional part is at
least one half, which forces the floor strictly below the bound). -/
lemma rheInt_le (q : ℚ) (n : ℤ) (h : q ≤ n) : rheInt q ≤ n := by
  have hf : ⌊q⌋ ≤ n := by
    have h2 := Int.floor_le_floor h
    simpa using h2
  simp only [rheInt]
  split
  · exact hf
  · next h1 =>
      have hq : (⌊q⌋ : ℚ) + 1 / 2 ≤ q := by push_neg at h1; linarith
      have hlt : (⌊q⌋ : ℚ) < (n : ℚ) := by
        have hn : q ≤ (n : ℚ) := h
        linarith
      have hfn : ⌊q⌋ < n := by exact_mod_cast hlt
      split
      · omega
      · split
        · exact hf
        · omega

/-- Helper: `round(·, 2)` maps `[0, 100]` into `[0, 100]`. -/
lemma round2_bounds (q : ℚ) (h0 : 0 ≤ q) (h1 : q ≤ 100) :
    0 ≤ round2 q ∧ round2 q ≤ 100 := by
  have l0 : 0 ≤ rheInt (q * 100) := rheInt_nonneg _ (by linarith)
  have l1 : rheInt (q * 100) ≤ 10000 := rheInt_le _ 10000 (by push_cast; linarith)
  unfold round2
  constructor
  · apply div_nonneg _ (by norm_num)
    exact_mod_cast l0
  · rw [div_le_iff₀ (by norm_num)]
    have : (rheInt (q * 100) : ℚ) ≤ 10000 := by exact_mod_cast l1
    linarith

/-- Helper: the report's score equals the rounded weighted average of the
enabled rules' evaluation scores, weighted by each rule's configured weight
(0 when the total weight is not positive). -/
lemma evaluate_outfit_score_eq (lib : List Rule) (colors : Option (List ColorV))
    (styles context : Option (List (String × String))) (tc bc : Option (List ColorV)) :
    (evaluate_outfit lib colors styles context tc bc).score =
      round2
        (if ((get_enabled_rules lib).map fun r => r.weight).sum > 0 then
          ((get_enabled_rules lib).map fun r =>
            (ruleEvaluate r (mkOutfitData colors styles context tc bc)).score * r.weight).sum /
            ((get_enabled_rules lib).map fun r => r.weight).sum
        else 0) := by
  simp only [evaluate_outfit, List.map_map]
  rfl

/-- Helper: a weighted sum of rule scores with nonnegative weights lies
between 0 and 100 times the total weight. -/
lemma rule_weighted_sum_bounds (rs : List Rule) (data : OutfitData)
    (hw : ∀ r ∈ rs, 0 ≤ r.weight) :
    0 ≤ (rs.map fun r => (ruleEvaluate r data).score * r.weight).sum ∧
      (rs.map fun r => (ruleEvaluate r data).score * r.weight).sum ≤
        100 * (rs.map fun r => r.weight).sum := by
  induction rs with
  | nil => simp
  | cons r rs ih =>
      obtain ⟨ih0, ih1⟩ := ih fun x hx => hw x (List.mem_cons_of_mem _ hx)
      have hwr := hw r (List.mem_cons_self _ _)
      obtain ⟨hs0, hs1⟩ := ruleEval_score_bounds r data
      simp only [List.map_cons, List.sum_cons]
      constructor
      · have : 0 ≤ (ruleEvaluate r data).score * r.weight := mul_nonneg hs0 hwr
        linarith
      · have : (ruleEvaluate r data).score * r.weight ≤ 100 * r.weight := by nlinarith
        nlinarith

/-- C5: every `evaluate_color_combo` score lies in `[0, 100]`, and every
report of `evaluate_outfit` over the default rule library has its aggregate
score in `[0, 100]`. -/
theorem scores_within_bounds :
    (∀ colors : List RGB,
      0 ≤ (evaluate_color_combo colors).score ∧ (evaluate_color_combo colors).score ≤ 100) ∧
    (∀ (colors : Option (List ColorV)) (styles context : Option (List (String × String)))
        (tc bc : Option (List ColorV)),
      0 ≤ (evaluate_outfit defaultLibrary colors styles context tc bc).score ∧
        (evaluate_outfit defaultLibrary colors styles context tc bc).score ≤ 100) := by
  constructor
  · intro colors
    rw [evaluate_color_combo]
    split
    · exact ⟨le_refl 0, by norm_num⟩
    split
    · exact ⟨by norm_num, le_refl 100⟩
    · exact ⟨le_max_left _ _, max_le (by norm_num) (min_le_left _ _)⟩
  · intro colors styles context tc bc
    have hw : ∀ r ∈ defaultLibrary, 0 ≤ r.weight := by
      intro r hr
      simp only [defaultLibrary, List.mem_cons, List.not_mem_nil, or_false] at hr
      rcases hr with rfl | rfl | rfl | rfl | rfl <;> norm_num
    have hwe : ∀ r ∈ get_enabled_rules defaultLibrary, 0 ≤ r.weight := fun r hr =>
      hw r (List.mem_of_mem_filter hr)
    obtain ⟨hS0, hS1⟩ := rule_weighted_sum_bounds (get_enabled_rules defaultLibrary)
      (mkOutfitData colors styles context tc bc) hwe
    rw [evaluate_outfit_score_eq]
    apply round2_bounds
    · split
      · next hpos => exact div_nonneg hS0 (le_of_lt hpos)
      · norm_num
    · split
      · next hpos => rw [div_le_iff₀ hpos]; linarith
      · norm_num

/-- C10: when the outfit record's overall color list is empty, all three
color rules return the fixed passing score-100 severity=info skip result,
whatever `top_colors`/`bottom_colors` hold — the base-class guard fires
before the brightness comparison can read them (first two conjuncts); and
when `top_colors`/`bottom_colors` both default to `colors`, the
light-top-dark-bottom comparison always passes with score 100 (equal average
brightness, or the empty-colors skip). -/
theorem color_rules_skip_without_colors :
    (∀ (styles context : List (String × String)) (tc bc : List ColorV),
      (mkOutfitData none (some styles) (some context) (some tc) (some bc)).colors = [] ∧
        (mkOutfitData (some []) (some styles) (some context) (some tc) (some bc)).colors = []) ∧
    (∀ (nm ds : String) (w : ℚ) (en : Bool) (m : ℕ)
        (styles context : List (String × String)) (tc bc : List ColorV),
      ruleEvaluate ⟨nm, ds, w, en, .threeColor m⟩ ⟨[], styles, context, tc, bc⟩ =
          ⟨true, 100, "未提供颜色信息，跳过颜色规则检查", none, .info, 1⟩ ∧
        ruleEvaluate ⟨nm, ds, w, en, .lightTopDark⟩ ⟨[], styles, context, tc, bc⟩ =
          ⟨true, 100, "未提供颜色信息，跳过颜色规则检查", none, .info, 1⟩ ∧
        ruleEvaluate ⟨nm, ds, w, en, .forbiddenCombo⟩ ⟨[], styles, context, tc, bc⟩ =
          ⟨true, 100, "未提供颜色信息，跳过颜色规则检查", none, .info, 1⟩) ∧
    (∀ (colors : List ColorV) (nm ds : String) (w : ℚ) (en : Bool)
        (styles context : Option (List (String × String))),
      (ruleEvaluate ⟨nm, ds, w, en, .lightTopDark⟩
          (mkOutfitData (some colors) styles context none none)).score = 100 ∧
        (ruleEvaluate ⟨nm, ds, w, en, .lightTopDark⟩
          (mkOutfitData (some colors) styles context none none)).passed = true) := by
  refine ⟨fun styles context tc bc => ⟨rfl, rfl⟩,
    fun nm ds w en m styles context tc bc => ⟨rfl, rfl, rfl⟩,
    fun colors nm ds w en styles context => ?_⟩
  cases colors with
  | nil => exact ⟨rfl, rfl⟩
  | cons c cs =>
      constructor <;>
        simp [ruleEvaluate, mkOutfitData, orDefault, lightTopDarkEval, le_refl]

/-- C6 (amended): the report's aggregate score is the weighted average
Σ(score·weight)/Σ(weight) of the enabled rules' results, taken in
registration order with each rule's configured weight, rounded (banker's
rounding) to two decimal places; when the total weight is not positive — in
particular when no rules are enabled — the aggregate is 0. -/
theorem aggregate_score_formula (lib : List Rule) (colors : Option (List ColorV))
    (styles context : Option (List (String × String))) (tc bc : Option (List ColorV)) :
    ((evaluate_outfit lib colors styles context tc bc).score =
      round2
        (if ((get_enabled_rules lib).map fun r => r.weight).sum > 0 then
          ((get_enabled_rules lib).map fun r =>
            (ruleEvaluate r (mkOutfitData colors styles context tc bc)).score * r.weight).sum /
            ((get_enabled_rules lib).map fun r => r.weight).sum
        else 0)) ∧
    (get_enabled_rules lib = [] →
      (evaluate_outfit lib colors styles context tc bc).score = 0) := by
  refine ⟨evaluate_outfit_score_eq lib colors styles context tc bc, fun h => ?_⟩
  rw [evaluate_outfit_score_eq, h]
  norm_num [round2, rheInt]

/-- C6 witness: a library with no rules yields aggregate score 0. -/
theorem aggregate_score_formula_witness :
    (evaluate_outfit [] none none none none none).score = 0 :=
  (aggregate_score_formula [] none none none none none).2 rfl

/-- C6 counterexample: on a styles-only outfit over the default library the
weighted scores sum to 685 and the weights to 7.3, so the exact weighted
average is 685/7.3 = 93.8356…, but the reported aggregate score is the
two-decimal rounding 93.84 — the report's score is not the weighted average
itself. -/
theorem aggregate_score_rounded_counterexample :
    ((evaluate_outfit defaultLibrary none
        (some [("top", "衬衫"), ("bottom", "牛仔裤"), ("shoes", "皮鞋")]) none none none).results.map
          fun e => e.score * e.weight).sum = 685 ∧
    ((evaluate_outfit defaultLibrary none
        (some [("top", "衬衫"), ("bottom", "牛仔裤"), ("shoes", "皮鞋")]) none none none).results.map
          fun e => e.weight).sum = 7.3 ∧
    (evaluate_outfit defaultLibrary none
        (some [("top", "衬衫"), ("bottom", "牛仔裤"), ("shoes", "皮鞋")]) none none none).score = 93.84 ∧
    (evaluate_outfit defaultLibrary none
        (some [("top", "衬衫"), ("bottom", "牛仔裤"), ("shoes", "皮鞋")]) none none none).score ≠
      685 / 7.3 := by
  have hmap : ((evaluate_outfit defaultLibrary none
      (some [("top", "衬衫"), ("bottom", "牛仔裤"), ("shoes", "皮鞋")]) none none none).results.map
        fun e => e.score * e.weight) =
      [100 * 1.5, 100 * 1.2, 100 * 1.8, 70 * 1.5, 100 * 1.3] := rfl
  have hwmap : ((evaluate_outfit defaultLibrary none
      (some [("top", "衬衫"), ("bottom", "牛仔裤"), ("shoes", "皮鞋")]) none none none).results.map
        fun e => e.weight) = [1.5, 1.2, 1.8, 1.5, 1.3] := rfl
  have h2 : ((get_enabled_rules defaultLibrary).map fun r =>
      (ruleEvaluate r (mkOutfitData none
        (some [("top", "衬衫"), ("bottom", "牛仔裤"), ("shoes", "皮鞋")]) none none none)).score *
        r.weight) = [100 * 1.5, 100 * 1.2, 100 * 1.8, 70 * 1.5, 100 * 1.3] := rfl
  have h1 : ((get_enabled_rules defaultLibrary).map fun r => r.weight) =
      [1.5, 1.2, 1.8, 1.5, 1.3] := rfl
  have hfl : ⌊(685000 : ℚ) / 73⌋ = 9383 := by
    rw [Int.floor_eq_iff]
    constructor <;> norm_num
  have hrh : rheInt ((685000 : ℚ) / 73) = 9384 := by
    simp only [rheInt, hfl]
    norm_num
  have hsum1 : ([(100 : ℚ) * 1.5, 100 * 1.2, 100 * 1.8, 70 * 1.5, 100 * 1.3]).sum = 685 := by
    norm_num [List.sum_cons, List.sum_nil]
  have hsum2 : ([(1.5 : ℚ), 1.2, 1.8, 1.5, 1.3]).sum = 7.3 := by
    norm_num [List.sum_cons, List.sum_nil]
  have hs : (evaluate_outfit defaultLibrary none
      (some [("top", "衬衫"), ("bottom", "牛仔裤"), ("shoes", "皮鞋")]) none none none).score =
      93.84 := by
    rw [evaluate_outfit_score_eq, h2, h1, hsum1, hsum2,
      if_pos (by norm_num : (7.3 : ℚ) > 0), round2,
      show (685 : ℚ) / 7.3 * 100 = 685000 / 73 by norm_num, hrh]
    norm_num
  refine ⟨by rw [hmap]; exact hsum1, by rw [hwmap]; exact hsum2, hs, by rw [hs]; norm_num⟩

end OutfitSim
